import Mathlib

/-!
Verification development for the Claw trust-score engine.

The definitions below are a shallow embedding of the scoring and decision
core of the repository: `scoring.js` (trust score, behavior score, policy
evaluation) and the clawcredit preflight decision modules.

Modelling conventions:
  * JS numbers that the code manipulates with exact arithmetic
    (confidences, weights, multipliers, risk penalties, day counts) are
    embedded as rationals; the exponential decay factor forces the score
    accumulators into the reals.
  * A JS value that may be absent or non-numeric is an `Option`:
    `confidence : Option Rat` (`none` models a value for which
    `Number.isFinite` is false), `createdAtMs : Option Int` (`none` models
    a date string whose parse is `NaN`).
  * String fields that the code pipes through
    `String(x ?? "").trim().toLowerCase()` are embedded as raw strings,
    with the normalization applied at the use sites, exactly as in the
    source; an absent field is the empty string.
  * The policy structure models the output of `normalizedPolicy`; its two
    map fields are lookup functions returning `Option` values (`none`
    models an absent key, or a stored value that is not a finite number).
-/

/-- `clamp(value, min, max)` from scoring.js: `Math.max(min, Math.min(max, value))`. -/
def clamp {α : Type} [LinearOrder α] (value lo hi : α) : α :=
  max lo (min hi value)

/-- Whitespace trimming on the underlying character list (model of `String.prototype.trim`). -/
def trimList (l : List Char) : List Char :=
  ((l.dropWhile Char.isWhitespace).reverse.dropWhile Char.isWhitespace).reverse

/-- Normalization `String(x ?? "").trim().toLowerCase()` applied throughout the source. -/
def normStr (s : String) : String :=
  String.mk ((trimList s.data).map Char.toLower)

/-- `EVENT_WEIGHTS` from config.js (trust weight table). -/
def EVENT_WEIGHTS : String → Option Rat := fun t =>
  if t = "completed_task_on_time" then some 8
  else if t = "payment_success" then some 10
  else if t = "verification_passed" then some 6
  else if t = "collaborative_feedback_positive" then some 5
  else if t = "failed_payment" then some (-12)
  else if t = "unresolved_dispute" then some (-10)
  else if t = "security_flag" then some (-20)
  else if t = "abuse_report" then some (-25)
  else if t = "api_key_leak" then some (-35)
  else if t = "impersonation_report" then some (-22)
  else if t = "spam_report" then some (-15)
  else if t = "missed_deadline" then some (-9)
  else if t = "task_abandoned" then some (-14)
  else if t = "subscription_canceled" then some (-6)
  else none

/-- `BEHAVIOR_EVENT_WEIGHTS` from config.js (behavior weight table). -/
def BEHAVIOR_EVENT_WEIGHTS : String → Option Rat := fun t =>
  if t = "completed_task_on_time" then some 10
  else if t = "payment_success" then some 3
  else if t = "verification_passed" then some 2
  else if t = "collaborative_feedback_positive" then some 4
  else if t = "failed_payment" then some (-2)
  else if t = "missed_deadline" then some (-10)
  else if t = "task_abandoned" then some (-14)
  else if t = "unresolved_dispute" then some (-6)
  else if t = "abuse_report" then some (-8)
  else if t = "spam_report" then some (-5)
  else if t = "security_flag" then some (-4)
  else none

/-- `SENSITIVE_EVENT_TYPES` from config.js. -/
def SENSITIVE_EVENT_TYPES : List String :=
  ["payment_success", "failed_payment", "security_flag", "abuse_report",
   "api_key_leak", "impersonation_report", "unresolved_dispute"]

/-- `SCORE_BASELINE` from config.js. -/
def SCORE_BASELINE : Rat := 50

/-- `SCORE_MIN` from config.js. -/
def SCORE_MIN : Rat := 0

/-- `SCORE_MAX` from config.js. -/
def SCORE_MAX : Rat := 100

/-- `DECAY_HALF_LIFE_DAYS` from config.js. -/
def DECAY_HALF_LIFE_DAYS : Rat := 30

/-- An event as seen by the scoring engine.  Fields that the engine does not
read (`id`, `details`, `externalEventId`) are omitted. -/
structure Event where
  kind : String
  eventType : String
  source : String
  sourceType : String
  confidence : Option Rat
  createdAtMs : Option Int

/-- One entry of `policy.eventOverrides`: `{enabled?: bool, multiplier?: float}`.
`enabled = some false` models the JS value being literally `false`;
`multiplier = none` models an absent or non-finite multiplier. -/
structure EventOverride where
  enabled : Option Bool
  multiplier : Option Rat

/-- A tenant policy after `normalizedPolicy` (defaults already merged). -/
structure Policy where
  minConfidence : Rat
  allowedSources : List String
  sourceTypeMultipliers : String → Option Rat
  eventOverrides : String → Option EventOverride
  requireVerifiedSensitive : Bool
  minSignalQuality : Rat

/-- `daysSince(isoDate, nowMs)` from scoring.js: an unparseable date
(`Number.isNaN(eventMs)`) yields age 0, otherwise
`Math.max(0, (nowMs - eventMs) / 86400000)`. -/
def daysSince (createdAtMs : Option Int) (nowMs : Int) : Rat :=
  match createdAtMs with
  | none => 0
  | some eventMs => max 0 ((((nowMs - eventMs : Int) : Rat)) / 86400000)

/-- `decay(daysAgo) = Math.exp((-LN_2 * daysAgo) / DECAY_HALF_LIFE_DAYS)`. -/
noncomputable def decay (daysAgo : Rat) : Real :=
  Real.exp ((-(Real.log 2) * (daysAgo : Real)) / (DECAY_HALF_LIFE_DAYS : Real))

/-- `weightOf(event)` from scoring.js: trust weight table keyed by the raw
`eventType`, falling back to a kind-based default. -/
def weightOf (event : Event) : Rat :=
  match EVENT_WEIGHTS event.eventType with
  | some w => w
  | none =>
    if event.kind = "positive" then 5
    else if event.kind = "negative" then -8
    else 0

/-- `behaviorWeightOf(event)` from scoring.js. -/
def behaviorWeightOf (event : Event) : Rat :=
  match BEHAVIOR_EVENT_WEIGHTS event.eventType with
  | some w => w
  | none =>
    if event.kind = "positive" then 4
    else if event.kind = "negative" then -6
    else 0

/-- `sourceTrustFactor(event)` from scoring.js. -/
def sourceTrustFactor (event : Event) : Rat :=
  let sourceType := normStr event.sourceType
  if sourceType = "verified_integration" then 1
  else if sourceType = "self_reported" then mkRat 3 4
  else if sourceType = "unverified" then mkRat 3 5
  else 1

/-- `confidenceFactor(event)` from scoring.js: non-finite confidence gives 1,
otherwise the confidence clamped to [0, 1]. -/
def confidenceFactor (event : Event) : Rat :=
  match event.confidence with
  | none => 1
  | some confidence => clamp confidence 0 1

/-- Result of `evaluatePolicy`. -/
inductive PolicyEffect where
  | excluded (reason : String)
  | includedWith (sourceFactor : Rat) (eventMultiplier : Rat)
deriving DecidableEq

/-- `evaluatePolicy(event, policy, confidence)` from scoring.js. -/
def evaluatePolicy (event : Event) (policy : Policy) (confidence : Rat) : PolicyEffect :=
  let eventType := normStr event.eventType
  let source := normStr event.source
  let sourceType := normStr event.sourceType
  let override := policy.eventOverrides eventType
  let isSensitive := SENSITIVE_EVENT_TYPES.contains eventType
  let verified := sourceType = "verified_integration"
  if override.bind EventOverride.enabled = some false then
    .excluded "event_override_disabled"
  else if policy.requireVerifiedSensitive && isSensitive && !verified then
    .excluded "unverified_sensitive_event"
  else if confidence < policy.minConfidence then
    .excluded "below_min_confidence"
  else if decide (policy.allowedSources ≠ []) && (source = "" || !policy.allowedSources.contains source) then
    .excluded "source_not_allowed"
  else
    let normalizedSourceFactor :=
      match policy.sourceTypeMultipliers sourceType with
      | some sourceFactor => clamp sourceFactor 0 2
      | none => sourceTrustFactor event
    let eventMultiplier :=
      match override.bind EventOverride.multiplier with
      | some overrideMultiplier => clamp overrideMultiplier 0 3
      | none => 1
    .includedWith normalizedSourceFactor eventMultiplier

/-- `levelFor(score)` from scoring.js. -/
def levelFor (score : Int) : String :=
  if score ≥ 90 then "Very High"
  else if score ≥ 75 then "High"
  else if score ≥ 55 then "Medium"
  else if score ≥ 35 then "Low"
  else "Very Low"

/-- `explanation(level, positive30d, negative30d)` from scoring.js. -/
def explanation (level : String) (positive30d negative30d : Nat) : String :=
  if positive30d > 0 && negative30d == 0 then
    level ++ ": " ++ toString positive30d ++
      " successful/positive events, no negative events in 30 days."
  else if positive30d == 0 && negative30d == 0 then
    level ++ ": no recent events; score currently reflects older activity with time decay."
  else
    level ++ ": " ++ toString positive30d ++ " positive vs " ++ toString negative30d ++
      " negative events in 30 days."

/-- `behaviorLevelFor(score)` from scoring.js. -/
def behaviorLevelFor (score : Int) : String :=
  if score ≥ 85 then "Excellent"
  else if score ≥ 70 then "Strong"
  else if score ≥ 50 then "Stable"
  else if score ≥ 35 then "At Risk"
  else "Poor"

/-- The severe-risk event types counted by `calculateBehaviorScore`. -/
def severeRiskTypes : List String :=
  ["api_key_leak", "security_flag", "abuse_report", "impersonation_report"]

/-- Per-event contribution to the behavior base:
`behaviorWeightOf(event) * decay(ageDays) * confidence * sourceFactor`. -/
noncomputable def behaviorContribution (nowMs : Int) (event : Event) : Real :=
  ((behaviorWeightOf event : Rat) : Real)
    * decay (daysSince event.createdAtMs nowMs)
    * ((confidenceFactor event : Rat) : Real)
    * ((sourceTrustFactor event : Rat) : Real)

/-- The accumulated behavior base: starts at 60 and adds every event's
contribution (no policy filtering). -/
noncomputable def behaviorBase (nowMs : Int) (events : List Event) : Real :=
  events.foldl (fun acc event => acc + behaviorContribution nowMs event) 60

/-- The `severeRisk30d` counter of `calculateBehaviorScore`. -/
def severeRisk30dCount (nowMs : Int) (events : List Event) : Nat :=
  events.countP (fun event =>
    daysSince event.createdAtMs nowMs ≤ 30 &&
      severeRiskTypes.contains (normStr event.eventType))

/-- The `onTime30d` counter of `calculateBehaviorScore` (raw `eventType` comparison). -/
def onTime30dCount (nowMs : Int) (events : List Event) : Nat :=
  events.countP (fun event =>
    daysSince event.createdAtMs nowMs ≤ 30 && event.eventType == "completed_task_on_time")

/-- The `missed30d` counter of `calculateBehaviorScore`. -/
def missed30dCount (nowMs : Int) (events : List Event) : Nat :=
  events.countP (fun event =>
    daysSince event.createdAtMs nowMs ≤ 30 && event.eventType == "missed_deadline")

/-- The `abandoned30d` counter of `calculateBehaviorScore`. -/
def abandoned30dCount (nowMs : Int) (events : List Event) : Nat :=
  events.countP (fun event =>
    daysSince event.createdAtMs nowMs ≤ 30 && event.eventType == "task_abandoned")

/-- The behavior fields of the score result that the claims read. -/
structure BehaviorResult where
  score : Int
  level : String
  trustInfluencePenalty : Nat
  onTime30d : Nat
  missed30d : Nat
  abandoned30d : Nat
  severeRisk30d : Nat

/-- `calculateBehaviorScore(events, nowMs)` from scoring.js. -/
noncomputable def calculateBehaviorScore (events : List Event) (nowMs : Int) : BehaviorResult :=
  let base := behaviorBase nowMs events
  let severeRisk30d := severeRisk30dCount nowMs events
  let trustPenalty := min 12 (severeRisk30d * 4)
  let score := round (clamp (base - (trustPenalty : Real)) ((SCORE_MIN : Rat) : Real) ((SCORE_MAX : Rat) : Real))
  { score := score
    level := behaviorLevelFor score
    trustInfluencePenalty := trustPenalty
    onTime30d := onTime30dCount nowMs events
    missed30d := missed30dCount nowMs events
    abandoned30d := abandoned30dCount nowMs events
    severeRisk30d := severeRisk30d }

/-- Per-event contribution to the trust score accumulator: zero when the
policy excludes the event, otherwise
`baseWeight * decayFactor * sourceFactor * confidenceFactor * eventMultiplier`. -/
noncomputable def trustContribution (nowMs : Int) (policy : Policy) (event : Event) : Real :=
  match evaluatePolicy event policy (confidenceFactor event) with
  | .excluded _ => 0
  | .includedWith sourceFactor eventMultiplier =>
    ((weightOf event : Rat) : Real)
      * decay (daysSince event.createdAtMs nowMs)
      * ((sourceFactor : Rat) : Real)
      * ((confidenceFactor event : Rat) : Real)
      * ((eventMultiplier : Rat) : Real)

/-- The trust accumulator `scoreValue`: starts at the baseline 50 and adds the
contribution of every event (excluded events add 0). -/
noncomputable def scoreValue (nowMs : Int) (policy : Policy) (events : List Event) : Real :=
  events.foldl (fun acc event => acc + trustContribution nowMs policy event) ((SCORE_BASELINE : Rat) : Real)

/-- The `policySummary` exclusion counters of `scoreAgent`. -/
structure PolicySummary where
  excludedByConfidence : Nat
  excludedBySource : Nat
  excludedByEventOverride : Nat
  excludedByVerification : Nat
  included : Nat
deriving DecidableEq

/-- One step of the `scoreAgent` loop on the policy counters, mirroring the
if/else-if chain on `policyEffect`. -/
def policySummaryStep (policy : Policy) (s : PolicySummary) (event : Event) : PolicySummary :=
  match evaluatePolicy event policy (confidenceFactor event) with
  | .includedWith _ _ => { s with included := s.included + 1 }
  | .excluded reason =>
    if reason = "below_min_confidence" then
      { s with excludedByConfidence := s.excludedByConfidence + 1 }
    else if reason = "source_not_allowed" then
      { s with excludedBySource := s.excludedBySource + 1 }
    else if reason = "event_override_disabled" then
      { s with excludedByEventOverride := s.excludedByEventOverride + 1 }
    else if reason = "unverified_sensitive_event" then
      { s with excludedByVerification := s.excludedByVerification + 1 }
    else s

/-- The policy counters produced by the `scoreAgent` loop. -/
def policySummaryOf (policy : Policy) (events : List Event) : PolicySummary :=
  events.foldl (policySummaryStep policy) ⟨0, 0, 0, 0, 0⟩

/-- The `positive30d` counter of `scoreAgent` (raw `kind` comparison). -/
def positive30dCount (nowMs : Int) (events : List Event) : Nat :=
  events.countP (fun event =>
    daysSince event.createdAtMs nowMs ≤ 30 && event.kind == "positive")

/-- The `neutral30d` counter of `scoreAgent`. -/
def neutral30dCount (nowMs : Int) (events : List Event) : Nat :=
  events.countP (fun event =>
    daysSince event.createdAtMs nowMs ≤ 30 && event.kind == "neutral")

/-- The `negative30d` counter of `scoreAgent`. -/
def negative30dCount (nowMs : Int) (events : List Event) : Nat :=
  events.countP (fun event =>
    daysSince event.createdAtMs nowMs ≤ 30 && event.kind == "negative")

/-- The `severeNegative30d` counter of `scoreAgent`: sensitive event type and
negative kind within the 30-day window. -/
def severeNegative30dCount (nowMs : Int) (events : List Event) : Nat :=
  events.countP (fun event =>
    daysSince event.createdAtMs nowMs ≤ 30 &&
      SENSITIVE_EVENT_TYPES.contains (normStr event.eventType) &&
      event.kind == "negative")

/-- The behavior-to-trust influence computed in `scoreAgent` from the behavior
score and the 30-day abandoned count. -/
def behaviorInfluenceOf (behaviorScore : Int) (abandoned30d : Nat) : Int :=
  let influence : Int :=
    if behaviorScore ≤ 35 then -6
    else if behaviorScore ≤ 50 then -3
    else if behaviorScore ≥ 85 then 2
    else 0
  if abandoned30d ≥ 2 then influence - 4 else influence

/-- The fields of the `scoreAgent` result that the claims read. -/
structure ScoreResult where
  agentId : String
  score : Int
  level : String
  explanationText : String
  positive30d : Nat
  neutral30d : Nat
  negative30d : Nat
  severeNegative30d : Nat
  lifetimeEvents : Nat
  policySummary : PolicySummary
  behavior : BehaviorResult
  behaviorTrustInfluence : Int
  trustBaseScore : Int
  trustBehaviorInfluence : Int
  trustFinalScore : Int

/-- `scoreAgent(agentId, events, options)` from scoring.js, with the single
`Date.now()` read modelled as the `nowMs` parameter and the policy already
normalized. -/
noncomputable def scoreAgent (agentId : String) (events : List Event) (policy : Policy)
    (nowMs : Int) : ScoreResult :=
  let trustScore := round (clamp (scoreValue nowMs policy events)
    ((SCORE_MIN : Rat) : Real) ((SCORE_MAX : Rat) : Real))
  let behavior := calculateBehaviorScore events nowMs
  let behaviorInfluence := behaviorInfluenceOf behavior.score behavior.abandoned30d
  let score := trustScore
  let level := levelFor score
  let positive30d := positive30dCount nowMs events
  let negative30d := negative30dCount nowMs events
  { agentId := agentId
    score := score
    level := level
    explanationText :=
      if behaviorInfluence == 0 then explanation level positive30d negative30d
      else explanation level positive30d negative30d ++ " Behavior influence " ++
        (if behaviorInfluence > 0 then "+" else "") ++ toString behaviorInfluence ++ "."
    positive30d := positive30d
    neutral30d := neutral30dCount nowMs events
    negative30d := negative30d
    severeNegative30d := severeNegative30dCount nowMs events
    lifetimeEvents := events.length
    policySummary := policySummaryOf policy events
    behavior := behavior
    behaviorTrustInfluence := behaviorInfluence
    trustBaseScore := trustScore
    trustBehaviorInfluence := behaviorInfluence
    trustFinalScore := score }

/-- `toNumber(value, fallback)` from the clawcredit modules: `none` models a
value whose `Number(...)` conversion is not finite. -/
def toNumber (value : Option Rat) (fallback : Rat) : Rat :=
  match value with
  | some num => num
  | none => fallback

/-- The preflight action payload risk fields.  The boolean fields model the
`=== true` checks of the source; `amountUsd = none` models an absent or
non-finite amount. -/
structure PreflightPayload where
  amountUsd : Option Rat
  newPayee : Bool
  firstTimeCounterparty : Bool
  highPrivilegeAction : Bool
  exposesApiKeys : Bool

/-- `riskFromPayload(payload)` from the clawcredit modules (identical in both
variants): stacking amount thresholds plus boolean flags, capped at 60. -/
def riskFromPayload (payload : PreflightPayload) : Nat :=
  let amountUsd := toNumber payload.amountUsd 0
  let risk :=
    (if amountUsd ≥ 1000 then 10 else 0) +
    (if amountUsd ≥ 5000 then 15 else 0) +
    (if amountUsd ≥ 20000 then 20 else 0) +
    (if payload.newPayee then 15 else 0) +
    (if payload.firstTimeCounterparty then 10 else 0) +
    (if payload.highPrivilegeAction then 20 else 0) +
    (if payload.exposesApiKeys then 25 else 0)
  min risk 60

/-- The decision stage of `clawCreditPreflight` in the service variant
(the module importing `scoreForAccountAgent`): takes the trust score, the
30-day severe-negative count and the behavior score produced by the scoring
engine, plus the action payload. -/
def preflightDecisionService (trustScore : Int) (severeNegative30d : Nat)
    (behaviorScore : Int) (payload : PreflightPayload) : String :=
  let riskPenalty := riskFromPayload payload
  let behaviorPenalty : Int :=
    if behaviorScore < 40 then 12 else if behaviorScore < 55 then 6 else 0
  let behaviorCredit : Int := if behaviorScore ≥ 85 then 3 else 0
  let adjustedScore := max 0 (trustScore - (riskPenalty : Int) - behaviorPenalty + behaviorCredit)
  if trustScore < 35 then "block"
  else if severeNegative30d ≥ 2 && riskPenalty ≥ 20 then "block"
  else if adjustedScore < 35 then "block"
  else if adjustedScore < 55 then "review"
  else "allow"

/-- The base decision chain of `clawCreditPreflight` in clawcredit.js
(policy/signal-quality variant), before the signal-quality gate. -/
def preflightBaseDecision (trustScore : Int) (payload : PreflightPayload) : String :=
  let riskPenalty := riskFromPayload payload
  let adjustedScore := max 0 (trustScore - (riskPenalty : Int))
  if adjustedScore < 35 then "block"
  else if adjustedScore < 55 then "review"
  else "allow"

/-- The decision of `clawCreditPreflight` in clawcredit.js including the
signal-quality post-check. -/
def preflightDecision (trustScore : Int) (signalQualityScore : Rat)
    (minSignalQuality : Rat) (payload : PreflightPayload) : String :=
  let base := preflightBaseDecision trustScore payload
  if minSignalQuality > 0 && signalQualityScore < minSignalQuality && base ≠ "block" then
    "review"
  else base

lemma foldl_add_init {α : Type} (f : α → Real) (c : Real) (l : List α) :
    l.foldl (fun acc e => acc + f e) c = c + (l.map f).sum := by
  induction l generalizing c with
  | nil => simp
  | cons e l ih => simp [List.foldl_cons, ih, add_assoc]

lemma round_le_round {x y : Real} (h : x ≤ y) : round x ≤ round y := by
  rw [round_eq, round_eq]
  exact Int.floor_le_floor (by linarith)

lemma round_clamp_score_bounds (x : Real) :
    0 ≤ round (clamp x 0 100) ∧ round (clamp x 0 100) ≤ 100 := by
  have hlo : (0 : Real) ≤ clamp x 0 100 := le_max_left _ _
  have hhi : clamp x 0 100 ≤ 100 := max_le (by norm_num) (min_le_left _ _)
  constructor
  · have := round_le_round hlo
    simpa using this
  · have := round_le_round hhi
    simpa using this

/-- C1: for every agent id, event list, policy and fixed clock reading, the
trust score returned by `scoreAgent` is `round(clamp(50 + S, 0, 100))`, where
`S` sums `baseWeight * decayFactor * sourceFactor * confidenceFactor *
eventMultiplier` over policy-included events and policy-excluded events
contribute 0; the returned score is always an integer in [0, 100]. -/
theorem trust_score_formula (agentId : String) (events : List Event) (policy : Policy)
    (nowMs : Int) :
    (scoreAgent agentId events policy nowMs).score =
      round (clamp ((50 : Real) + (events.map (trustContribution nowMs policy)).sum) 0 100)
    ∧ (∀ event reason,
        evaluatePolicy event policy (confidenceFactor event) = .excluded reason →
        trustContribution nowMs policy event = 0)
    ∧ (∀ event sourceFactor eventMultiplier,
        evaluatePolicy event policy (confidenceFactor event) =
            .includedWith sourceFactor eventMultiplier →
        trustContribution nowMs policy event =
          ((weightOf event : Rat) : Real) * decay (daysSince event.createdAtMs nowMs)
            * ((sourceFactor : Rat) : Real) * ((confidenceFactor event : Rat) : Real)
            * ((eventMultiplier : Rat) : Real))
    ∧ 0 ≤ (scoreAgent agentId events policy nowMs).score
    ∧ (scoreAgent agentId events policy nowMs).score ≤ 100 := by
  have hscore : (scoreAgent agentId events policy nowMs).score =
      round (clamp ((50 : Real) + (events.map (trustContribution nowMs policy)).sum) 0 100) := by
    show round (clamp (scoreValue nowMs policy events) _ _) = _
    rw [scoreValue, foldl_add_init]
    norm_num [SCORE_BASELINE, SCORE_MIN, SCORE_MAX]
  refine ⟨hscore, ?_, ?_, ?_, ?_⟩
  · intro event reason h
    simp [trustContribution, h]
  · intro event sourceFactor eventMultiplier h
    simp [trustContribution, h]
  · rw [hscore]; exact (round_clamp_score_bounds _).1
  · rw [hscore]; exact (round_clamp_score_bounds _).2

/-- A sample event whose confidence 0.5 falls below a 0.9 confidence floor. -/
def sampleLowConfidenceEvent : Event :=
  { kind := "negative", eventType := "spam", source := "", sourceType := "",
    confidence := some (mkRat 1 2), createdAtMs := none }

/-- A sample policy with a 0.9 confidence floor and no other restriction. -/
def sampleStrictPolicy : Policy :=
  { minConfidence := mkRat 9 10, allowedSources := [],
    sourceTypeMultipliers := fun _ => none, eventOverrides := fun _ => none,
    requireVerifiedSensitive := false, minSignalQuality := 0 }

/-- Witness for C1 at a concrete excluded event. -/
theorem trust_score_formula_witness :
    evaluatePolicy sampleLowConfidenceEvent sampleStrictPolicy
        (confidenceFactor sampleLowConfidenceEvent) = .excluded "below_min_confidence"
    ∧ trustContribution 0 sampleStrictPolicy sampleLowConfidenceEvent = 0 :=
  ⟨by decide,
    (trust_score_formula "agent" [sampleLowConfidenceEvent] sampleStrictPolicy 0).2.1
      sampleLowConfidenceEvent "below_min_confidence" (by decide)⟩

/-- The sum of the five policy counters. -/
def PolicySummary.total (s : PolicySummary) : Nat :=
  s.included + s.excludedByConfidence + s.excludedBySource +
    s.excludedByEventOverride + s.excludedByVerification

lemma evaluatePolicy_excluded_reason (event : Event) (policy : Policy) (confidence : Rat)
    (reason : String) (h : evaluatePolicy event policy confidence = .excluded reason) :
    reason = "event_override_disabled" ∨ reason = "unverified_sensitive_event" ∨
      reason = "below_min_confidence" ∨ reason = "source_not_allowed" := by
  unfold evaluatePolicy at h
  dsimp only at h
  split at h
  · simp_all
  · split at h
    · simp_all
    · split at h
      · simp_all
      · split at h
        · simp_all
        · simp_all

lemma policySummaryStep_total (policy : Policy) (s : PolicySummary) (event : Event) :
    (policySummaryStep policy s event).total = s.total + 1 := by
  unfold policySummaryStep
  cases h : evaluatePolicy event policy (confidenceFactor event) with
  | includedWith sourceFactor eventMultiplier =>
    simp [PolicySummary.total]; omega
  | excluded reason =>
    rcases evaluatePolicy_excluded_reason event policy (confidenceFactor event) reason h with
      h1 | h1 | h1 | h1 <;> subst h1 <;> simp [PolicySummary.total] <;> omega

lemma policySummaryOf_total_aux (policy : Policy) (events : List Event) :
    ∀ s : PolicySummary, (events.foldl (policySummaryStep policy) s).total =
      s.total + events.length := by
  induction events with
  | nil => intro s; simp
  | cons event rest ih =>
    intro s
    simp only [List.foldl_cons, List.length_cons, ih, policySummaryStep_total]
    omega

/-- C8: the policy summary counters returned by `scoreAgent` conserve the
input: `included` plus the four exclusion counters equals the number of
events, every event being either included or attributed exactly one
exclusion reason. -/
theorem policy_exclusion_conservation (agentId : String) (events : List Event)
    (policy : Policy) (nowMs : Int) :
    (scoreAgent agentId events policy nowMs).policySummary.included +
      (scoreAgent agentId events policy nowMs).policySummary.excludedByConfidence +
      (scoreAgent agentId events policy nowMs).policySummary.excludedBySource +
      (scoreAgent agentId events policy nowMs).policySummary.excludedByEventOverride +
      (scoreAgent agentId events policy nowMs).policySummary.excludedByVerification =
      events.length := by
  have h : (scoreAgent agentId events policy nowMs).policySummary =
      policySummaryOf policy events := rfl
  rw [h]
  have := policySummaryOf_total_aux policy events ⟨0, 0, 0, 0, 0⟩
  simp [PolicySummary.total] at this
  rw [policySummaryOf]
  omega

/-- C4: the behavior score equals
`round(clamp(60 + B - min(12, 4 * severeRisk30d), 0, 100))`, where `B` sums
`behaviorWeight * decayFactor * confidenceFactor * sourceFactor` over ALL
events — the behavior result of `scoreAgent` is the same for every policy —
and `severeRisk30d` counts events at most 30 days old whose event type is in
the severe-risk set. -/
theorem behavior_score_formula (agentId : String) (events : List Event) (policy : Policy)
    (nowMs : Int) :
    (scoreAgent agentId events policy nowMs).behavior.score =
      round (clamp ((60 : Real) + (events.map (behaviorContribution nowMs)).sum
        - ((min 12 (4 * severeRisk30dCount nowMs events) : Nat) : Real)) 0 100)
    ∧ (scoreAgent agentId events policy nowMs).behavior = calculateBehaviorScore events nowMs
    ∧ severeRisk30dCount nowMs events = events.countP (fun event =>
        daysSince event.createdAtMs nowMs ≤ 30 &&
          severeRiskTypes.contains (normStr event.eventType))
    ∧ (∀ event, behaviorContribution nowMs event =
        ((behaviorWeightOf event : Rat) : Real) * decay (daysSince event.createdAtMs nowMs)
          * ((confidenceFactor event : Rat) : Real)
          * ((sourceTrustFactor event : Rat) : Real)) := by
  refine ⟨?_, rfl, rfl, fun event => rfl⟩
  show round (clamp (behaviorBase nowMs events
      - ((min 12 (severeRisk30dCount nowMs events * 4) : Nat) : Real)) _ _) = _
  rw [behaviorBase, foldl_add_init, Nat.mul_comm]
  norm_num [SCORE_MIN, SCORE_MAX]

/-- C6: the behavior-to-trust influence is computed and returned as a separate
field, appended to the explanation only when nonzero, but never added into the
returned trust score: the score always equals `round(clamp(scoreValue, 0,
100))`, the base trust accumulation, whatever the influence value is. -/
theorem behavior_influence_not_added (agentId : String) (events : List Event)
    (policy : Policy) (nowMs : Int) :
    (scoreAgent agentId events policy nowMs).score =
      (scoreAgent agentId events policy nowMs).trustBaseScore
    ∧ (scoreAgent agentId events policy nowMs).score =
        round (clamp (scoreValue nowMs policy events) 0 100)
    ∧ (scoreAgent agentId events policy nowMs).trustFinalScore =
        (scoreAgent agentId events policy nowMs).score
    ∧ (scoreAgent agentId events policy nowMs).trustBehaviorInfluence =
        behaviorInfluenceOf (scoreAgent agentId events policy nowMs).behavior.score
          (scoreAgent agentId events policy nowMs).behavior.abandoned30d
    ∧ (scoreAgent agentId events policy nowMs).behaviorTrustInfluence =
        (scoreAgent agentId events policy nowMs).trustBehaviorInfluence
    ∧ (∀ behaviorScore : Int, ∀ abandoned30d : Nat,
        behaviorInfluenceOf behaviorScore abandoned30d =
          (if behaviorScore ≤ 35 then -6
            else if behaviorScore ≤ 50 then -3
            else if behaviorScore ≥ 85 then 2
            else 0) + (if abandoned30d ≥ 2 then -4 else 0))
    ∧ ((scoreAgent agentId events policy nowMs).trustBehaviorInfluence = 0 →
        (scoreAgent agentId events policy nowMs).explanationText =
          explanation (scoreAgent agentId events policy nowMs).level
            (scoreAgent agentId events policy nowMs).positive30d
            (scoreAgent agentId events policy nowMs).negative30d)
    ∧ ((scoreAgent agentId events policy nowMs).trustBehaviorInfluence ≠ 0 →
        (scoreAgent agentId events policy nowMs).explanationText =
          explanation (scoreAgent agentId events policy nowMs).level
            (scoreAgent agentId events policy nowMs).positive30d
            (scoreAgent agentId events policy nowMs).negative30d ++
            " Behavior influence " ++
            (if (scoreAgent agentId events policy nowMs).trustBehaviorInfluence > 0
              then "+" else "") ++
            toString (scoreAgent agentId events policy nowMs).trustBehaviorInfluence
            ++ ".") := by
  refine ⟨rfl, ?_, rfl, rfl, rfl, ?_, ?_, ?_⟩
  · show round (clamp (scoreValue nowMs policy events)
      ((SCORE_MIN : Rat) : Real) ((SCORE_MAX : Rat) : Real)) = _
    norm_num [SCORE_MIN, SCORE_MAX]
  · intro behaviorScore abandoned30d
    unfold behaviorInfluenceOf
    dsimp only
    split_ifs <;> omega
  · intro h
    have hbi : behaviorInfluenceOf (calculateBehaviorScore events nowMs).score
        (calculateBehaviorScore events nowMs).abandoned30d = 0 := h
    show (if (behaviorInfluenceOf (calculateBehaviorScore events nowMs).score
        (calculateBehaviorScore events nowMs).abandoned30d) == 0 then _ else _) = _
    rw [hbi]
    rfl
  · intro h
    have hbi : behaviorInfluenceOf (calculateBehaviorScore events nowMs).score
        (calculateBehaviorScore events nowMs).abandoned30d ≠ 0 := h
    show (if (behaviorInfluenceOf (calculateBehaviorScore events nowMs).score
        (calculateBehaviorScore events nowMs).abandoned30d) == 0 then _ else _) = _
    rw [if_neg (by simpa using hbi)]
    rfl

/-- Witness for C6 at a concrete input (empty ledger): the influence is zero
and the explanation is the plain templated sentence. -/
theorem behavior_influence_not_added_witness :
    (scoreAgent "agent" [] sampleStrictPolicy 0).trustBehaviorInfluence = 0
    ∧ (scoreAgent "agent" [] sampleStrictPolicy 0).explanationText =
        explanation (scoreAgent "agent" [] sampleStrictPolicy 0).level
          (scoreAgent "agent" [] sampleStrictPolicy 0).positive30d
          (scoreAgent "agent" [] sampleStrictPolicy 0).negative30d := by
  have hscore : (calculateBehaviorScore ([] : List Event) 0).score = 60 := by
    unfold calculateBehaviorScore
    norm_num [behaviorBase, severeRisk30dCount, SCORE_MIN, SCORE_MAX, clamp,
      min_def, max_def]
  have h0 : (scoreAgent "agent" [] sampleStrictPolicy 0).trustBehaviorInfluence = 0 := by
    have hab : (calculateBehaviorScore ([] : List Event) 0).abandoned30d = 0 := rfl
    show behaviorInfluenceOf (calculateBehaviorScore ([] : List Event) 0).score
      (calculateBehaviorScore ([] : List Event) 0).abandoned30d = 0
    rw [hscore, hab]
    decide
  exact ⟨h0, (behavior_influence_not_added "agent" [] sampleStrictPolicy 0).2.2.2.2.2.2.1 h0⟩

lemma evaluatePolicy_ite (event : Event) (policy : Policy) (confidence : Rat) :
    evaluatePolicy event policy confidence =
      (if (policy.eventOverrides (normStr event.eventType)).bind EventOverride.enabled
            = some false then
        .excluded "event_override_disabled"
      else if policy.requireVerifiedSensitive = true
          ∧ normStr event.eventType ∈ SENSITIVE_EVENT_TYPES
          ∧ normStr event.sourceType ≠ "verified_integration" then
        .excluded "unverified_sensitive_event"
      else if confidence < policy.minConfidence then
        .excluded "below_min_confidence"
      else if policy.allowedSources ≠ []
          ∧ (normStr event.source = "" ∨ normStr event.source ∉ policy.allowedSources) then
        .excluded "source_not_allowed"
      else
        .includedWith
          (match policy.sourceTypeMultipliers (normStr event.sourceType) with
            | some sourceFactor => clamp sourceFactor 0 2
            | none => sourceTrustFactor event)
          (match (policy.eventOverrides (normStr event.eventType)).bind
              EventOverride.multiplier with
            | some overrideMultiplier => clamp overrideMultiplier 0 3
            | none => 1)) := by
  unfold evaluatePolicy
  dsimp only
  split_ifs <;> simp_all

/-- C3: `evaluatePolicy` runs its exclusion checks in a fixed order with
first-match-wins reason attribution — disabled event override, unverified
sensitive event, confidence floor, source allow-list — and an event passing
all four is included with the policy source-type multiplier clamped to [0,2]
(else the default source-trust factor) and the override multiplier clamped to
[0,3] (else 1). -/
theorem policy_evaluation_order (event : Event) (policy : Policy) (confidence : Rat) :
    ((policy.eventOverrides (normStr event.eventType)).bind EventOverride.enabled
        = some false →
      evaluatePolicy event policy confidence = .excluded "event_override_disabled")
    ∧ ((policy.eventOverrides (normStr event.eventType)).bind EventOverride.enabled
          ≠ some false →
       policy.requireVerifiedSensitive = true
          ∧ normStr event.eventType ∈ SENSITIVE_EVENT_TYPES
          ∧ normStr event.sourceType ≠ "verified_integration" →
       evaluatePolicy event policy confidence = .excluded "unverified_sensitive_event")
    ∧ ((policy.eventOverrides (normStr event.eventType)).bind EventOverride.enabled
          ≠ some false →
       ¬(policy.requireVerifiedSensitive = true
          ∧ normStr event.eventType ∈ SENSITIVE_EVENT_TYPES
          ∧ normStr event.sourceType ≠ "verified_integration") →
       confidence < policy.minConfidence →
       evaluatePolicy event policy confidence = .excluded "below_min_confidence")
    ∧ ((policy.eventOverrides (normStr event.eventType)).bind EventOverride.enabled
          ≠ some false →
       ¬(policy.requireVerifiedSensitive = true
          ∧ normStr event.eventType ∈ SENSITIVE_EVENT_TYPES
          ∧ normStr event.sourceType ≠ "verified_integration") →
       ¬(confidence < policy.minConfidence) →
       policy.allowedSources ≠ []
          ∧ (normStr event.source = "" ∨ normStr event.source ∉ policy.allowedSources) →
       evaluatePolicy event policy confidence = .excluded "source_not_allowed")
    ∧ ((policy.eventOverrides (normStr event.eventType)).bind EventOverride.enabled
          ≠ some false →
       ¬(policy.requireVerifiedSensitive = true
          ∧ normStr event.eventType ∈ SENSITIVE_EVENT_TYPES
          ∧ normStr event.sourceType ≠ "verified_integration") →
       ¬(confidence < policy.minConfidence) →
       ¬(policy.allowedSources ≠ []
          ∧ (normStr event.source = "" ∨ normStr event.source ∉ policy.allowedSources)) →
       evaluatePolicy event policy confidence = .includedWith
         (match policy.sourceTypeMultipliers (normStr event.sourceType) with
           | some sourceFactor => clamp sourceFactor 0 2
           | none => sourceTrustFactor event)
         (match (policy.eventOverrides (normStr event.eventType)).bind
             EventOverride.multiplier with
           | some overrideMultiplier => clamp overrideMultiplier 0 3
           | none => 1)) := by
  refine ⟨?_, ?_, ?_, ?_, ?_⟩
  · intro h1
    rw [evaluatePolicy_ite, if_pos h1]
  · intro h1 h2
    rw [evaluatePolicy_ite, if_neg h1, if_pos h2]
  · intro h1 h2 h3
    rw [evaluatePolicy_ite, if_neg h1, if_neg h2, if_pos h3]
  · intro h1 h2 h3 h4
    rw [evaluatePolicy_ite, if_neg h1, if_neg h2, if_neg h3, if_pos h4]
  · intro h1 h2 h3 h4
    rw [evaluatePolicy_ite, if_neg h1, if_neg h2, if_neg h3, if_neg h4]

/-- A sample event handled manually with an allow-listed source. -/
def sampleManualEvent : Event :=
  { kind := "positive", eventType := "custom_event", source := "stripe",
    sourceType := "manual", confidence := none, createdAtMs := some 0 }

/-- A sample policy with an out-of-range source multiplier and an out-of-range
override multiplier for the sample event. -/
def sampleMultiplierPolicy : Policy :=
  { minConfidence := 0, allowedSources := ["stripe"],
    sourceTypeMultipliers := fun sourceType =>
      if sourceType = "manual" then some 5 else none,
    eventOverrides := fun eventType =>
      if eventType = "custom_event" then
        some { enabled := some true, multiplier := some 10 }
      else none,
    requireVerifiedSensitive := true, minSignalQuality := 0 }

/-- Witness for C3: the sample event passes all four checks and is included
with the 5x source multiplier clamped to 2 and the 10x override multiplier
clamped to 3. -/
theorem policy_evaluation_order_witness :
    (sampleMultiplierPolicy.eventOverrides (normStr sampleManualEvent.eventType)).bind
        EventOverride.enabled ≠ some false
    ∧ ¬(sampleMultiplierPolicy.requireVerifiedSensitive = true
        ∧ normStr sampleManualEvent.eventType ∈ SENSITIVE_EVENT_TYPES
        ∧ normStr sampleManualEvent.sourceType ≠ "verified_integration")
    ∧ ¬((1 : Rat) < sampleMultiplierPolicy.minConfidence)
    ∧ ¬(sampleMultiplierPolicy.allowedSources ≠ []
        ∧ (normStr sampleManualEvent.source = ""
          ∨ normStr sampleManualEvent.source ∉ sampleMultiplierPolicy.allowedSources))
    ∧ evaluatePolicy sampleManualEvent sampleMultiplierPolicy 1 = .includedWith 2 3 := by
  refine ⟨by decide, by decide, by decide, by decide, ?_⟩
  have h := (policy_evaluation_order sampleManualEvent sampleMultiplierPolicy 1).2.2.2.2
    (by decide) (by decide) (by decide) (by decide)
  rw [h]
  decide

/-- C9: scoring never fails on malformed individual events (every embedded
function is total); an unparseable `createdAt` is treated as age 0 (full decay
weight, inside the 30-day window), a missing/non-numeric confidence defaults
to factor 1 and a numeric one is clamped to [0,1], and unknown event types and
source types fall back to the kind-based default weights and the default
source factor. -/
theorem malformed_event_defaults (nowMs : Int) (event : Event) (c : Rat) :
    (event.createdAtMs = none → daysSince event.createdAtMs nowMs = 0)
    ∧ decay 0 = 1
    ∧ (event.createdAtMs = none → daysSince event.createdAtMs nowMs ≤ 30)
    ∧ (event.confidence = none → confidenceFactor event = 1)
    ∧ (event.confidence = some c → confidenceFactor event = clamp c 0 1)
    ∧ (0 ≤ confidenceFactor event ∧ confidenceFactor event ≤ 1)
    ∧ (EVENT_WEIGHTS event.eventType = none →
        weightOf event = (if event.kind = "positive" then 5
          else if event.kind = "negative" then -8 else 0))
    ∧ (BEHAVIOR_EVENT_WEIGHTS event.eventType = none →
        behaviorWeightOf event = (if event.kind = "positive" then 4
          else if event.kind = "negative" then -6 else 0))
    ∧ (normStr event.sourceType ≠ "verified_integration" →
       normStr event.sourceType ≠ "self_reported" →
       normStr event.sourceType ≠ "unverified" →
       sourceTrustFactor event = 1) := by
  refine ⟨?_, ?_, ?_, ?_, ?_, ?_, ?_, ?_, ?_⟩
  · intro h; simp [daysSince, h]
  · simp [decay, DECAY_HALF_LIFE_DAYS]
  · intro h; simp [daysSince, h]
  · intro h; simp [confidenceFactor, h]
  · intro h; simp [confidenceFactor, h]
  · cases h : event.confidence with
    | none => simp [confidenceFactor, h]
    | some cval =>
      have hc : confidenceFactor event = clamp cval 0 1 := by
        simp [confidenceFactor, h]
      rw [hc]
      unfold clamp
      exact ⟨le_max_left _ _, max_le (by norm_num) (min_le_left _ _)⟩
  · intro h; simp [weightOf, h]
  · intro h; simp [behaviorWeightOf, h]
  · intro h1 h2 h3; simp [sourceTrustFactor, h1, h2, h3]

/-- A sample event whose date failed to parse, with no confidence and an
unknown event type, handled manually. -/
def sampleMalformedEvent : Event :=
  { kind := "positive", eventType := "mystery_event", source := "",
    sourceType := "manual", confidence := none, createdAtMs := none }

/-- A sample event with an out-of-range confidence. -/
def sampleOverconfidentEvent : Event :=
  { kind := "neutral", eventType := "mystery_event", source := "",
    sourceType := "verified_integration", confidence := some 2, createdAtMs := some 0 }

/-- Witness for C9 at concrete malformed events. -/
theorem malformed_event_defaults_witness :
    sampleMalformedEvent.createdAtMs = none
    ∧ daysSince sampleMalformedEvent.createdAtMs 123456789 = 0
    ∧ confidenceFactor sampleMalformedEvent = 1
    ∧ EVENT_WEIGHTS sampleMalformedEvent.eventType = none
    ∧ weightOf sampleMalformedEvent = 5
    ∧ sourceTrustFactor sampleMalformedEvent = 1
    ∧ confidenceFactor sampleOverconfidentEvent = 1 := by
  have h := malformed_event_defaults 123456789 sampleMalformedEvent 2
  refine ⟨rfl, h.1 rfl, h.2.2.2.1 rfl, by decide, ?_, ?_, ?_⟩
  · exact (h.2.2.2.2.2.2.1 (by decide)).trans (by decide)
  · exact (h.2.2.2.2.2.2.2.2 (by decide) (by decide) (by decide))
  · exact ((malformed_event_defaults 0 sampleOverconfidentEvent 2).2.2.2.2.1 rfl).trans
      (by decide)

/-- The risky example payload of the spec: a $25,000 action to a new payee and
first-time counterparty. -/
def sampleRiskyPayload : PreflightPayload :=
  { amountUsd := some 25000, newPayee := true, firstTimeCounterparty := true,
    highPrivilegeAction := false, exposesApiKeys := false }

/-- C5: the risk penalty is the additive total of the stacking amount
thresholds (+10 at 1000, +15 more at 5000, +20 more at 20000) and the boolean
flags (+15 newPayee, +10 firstTimeCounterparty, +20 highPrivilegeAction, +25
exposesApiKeys), capped at 60; the $25,000 new-payee first-time-counterparty
example accrues 10+15+20+15+10 = 70 and is capped to 60. -/
theorem risk_penalty_additive_capped (payload : PreflightPayload) :
    riskFromPayload payload =
      min 60 ((if toNumber payload.amountUsd 0 ≥ 1000 then 10 else 0) +
        (if toNumber payload.amountUsd 0 ≥ 5000 then 15 else 0) +
        (if toNumber payload.amountUsd 0 ≥ 20000 then 20 else 0) +
        (if payload.newPayee then 15 else 0) +
        (if payload.firstTimeCounterparty then 10 else 0) +
        (if payload.highPrivilegeAction then 20 else 0) +
        (if payload.exposesApiKeys then 25 else 0))
    ∧ riskFromPayload payload ≤ 60
    ∧ ((if toNumber sampleRiskyPayload.amountUsd 0 ≥ 1000 then 10 else 0) +
        (if toNumber sampleRiskyPayload.amountUsd 0 ≥ 5000 then 15 else 0) +
        (if toNumber sampleRiskyPayload.amountUsd 0 ≥ 20000 then 20 else 0) +
        (if sampleRiskyPayload.newPayee then 15 else 0) +
        (if sampleRiskyPayload.firstTimeCounterparty then 10 else 0) +
        (if sampleRiskyPayload.highPrivilegeAction then 20 else 0) +
        (if sampleRiskyPayload.exposesApiKeys then 25 else 0) : Nat) = 70
    ∧ riskFromPayload sampleRiskyPayload = 60 := by
  refine ⟨?_, ?_, by decide, by decide⟩
  · rw [riskFromPayload, Nat.min_comm]
  · exact Nat.min_le_right _ _

/-- C10: an absent or non-finite `amountUsd` contributes no risk — the
penalty is exactly the one computed with `amountUsd = 0` — and the
computation is total. -/
theorem malformed_amount_no_risk (newPayee firstTimeCounterparty
    highPrivilegeAction exposesApiKeys : Bool) :
    riskFromPayload
        ⟨none, newPayee, firstTimeCounterparty, highPrivilegeAction, exposesApiKeys⟩ =
      riskFromPayload
        ⟨some 0, newPayee, firstTimeCounterparty, highPrivilegeAction, exposesApiKeys⟩ := by
  simp [riskFromPayload, toNumber]

/-- A payload with no risk fields set. -/
def noRiskPayload : PreflightPayload :=
  { amountUsd := none, newPayee := false, firstTimeCounterparty := false,
    highPrivilegeAction := false, exposesApiKeys := false }

/-- C2: a trust score below 35 always yields "block", in both preflight
variants, regardless of the payload risk fields, the behavior score, the
severe-negative count and the signal-quality inputs. -/
theorem hard_floor_blocks (trustScore : Int) (severeNegative30d : Nat)
    (behaviorScore : Int) (signalQualityScore minSignalQuality : Rat)
    (payload : PreflightPayload) (h : trustScore < 35) :
    preflightDecisionService trustScore severeNegative30d behaviorScore payload = "block"
    ∧ preflightDecision trustScore signalQualityScore minSignalQuality payload
        = "block" := by
  constructor
  · unfold preflightDecisionService
    dsimp only
    rw [if_pos h]
  · have hr : (0 : Int) ≤ (riskFromPayload payload : Int) := Int.natCast_nonneg _
    have hb : trustScore - (riskFromPayload payload : Int) < 35 := by omega
    have hadj : max 0 (trustScore - (riskFromPayload payload : Int)) < 35 :=
      max_lt (by norm_num) hb
    unfold preflightDecision preflightBaseDecision
    dsimp only
    rw [if_pos hadj]
    simp

/-- Witness for C2 at trust score 30 with a risk-free payload. -/
theorem hard_floor_blocks_witness :
    (30 : Int) < 35
    ∧ preflightDecisionService 30 0 60 noRiskPayload = "block"
    ∧ preflightDecision 30 0 0 noRiskPayload = "block" :=
  ⟨by decide,
    (hard_floor_blocks 30 0 60 0 0 noRiskPayload (by decide)).1,
    (hard_floor_blocks 30 0 60 0 0 noRiskPayload (by decide)).2⟩

lemma preflightDecision_eq (trustScore : Int) (signalQualityScore minSignalQuality : Rat)
    (payload : PreflightPayload) :
    preflightDecision trustScore signalQualityScore minSignalQuality payload =
      (if minSignalQuality > 0 ∧ signalQualityScore < minSignalQuality
          ∧ preflightBaseDecision trustScore payload ≠ "block" then "review"
        else preflightBaseDecision trustScore payload) := by
  unfold preflightDecision
  dsimp only
  split_ifs <;> simp_all

lemma preflightBaseDecision_cases (trustScore : Int) (payload : PreflightPayload) :
    preflightBaseDecision trustScore payload = "allow"
    ∨ preflightBaseDecision trustScore payload = "review"
    ∨ preflightBaseDecision trustScore payload = "block" := by
  unfold preflightBaseDecision
  dsimp only
  split_ifs <;> simp

/-- C7: the signal-quality gate downgrades an otherwise allow/review outcome
to "review" when `minSignalQuality > 0` and the signal-quality score is below
it; it never produces "block" from a non-block outcome, never changes an
outcome that is already "block", and leaves the decision unchanged when it
does not trigger. -/
theorem signal_quality_gate (trustScore : Int) (signalQualityScore minSignalQuality : Rat)
    (payload : PreflightPayload) :
    (preflightDecision trustScore signalQualityScore minSignalQuality payload = "block"
      ↔ preflightBaseDecision trustScore payload = "block")
    ∧ (minSignalQuality > 0 → signalQualityScore < minSignalQuality →
        preflightBaseDecision trustScore payload ≠ "block" →
        preflightDecision trustScore signalQualityScore minSignalQuality payload
          = "review")
    ∧ (preflightBaseDecision trustScore payload = "block" →
        preflightDecision trustScore signalQualityScore minSignalQuality payload
          = "block")
    ∧ (¬(minSignalQuality > 0 ∧ signalQualityScore < minSignalQuality) →
        preflightDecision trustScore signalQualityScore minSignalQuality payload
          = preflightBaseDecision trustScore payload) := by
  refine ⟨?_, ?_, ?_, ?_⟩
  · rw [preflightDecision_eq]
    by_cases hc : minSignalQuality > 0 ∧ signalQualityScore < minSignalQuality
        ∧ preflightBaseDecision trustScore payload ≠ "block"
    · rw [if_pos hc]
      constructor
      · intro hrb; exact absurd hrb (by decide)
      · intro hbb; exact absurd hbb hc.2.2
    · rw [if_neg hc]
  · intro h1 h2 h3
    rw [preflightDecision_eq, if_pos ⟨h1, h2, h3⟩]
  · intro hbb
    rw [preflightDecision_eq, if_neg]
    · exact hbb
    · rintro ⟨-, -, hne⟩; exact hne hbb
  · intro hn
    rw [preflightDecision_eq, if_neg]
    rintro ⟨h1, h2, -⟩; exact hn ⟨h1, h2⟩

/-- Witness for C7: a trust score of 80 gives "allow", and a signal-quality
score 40 under a minimum of 50 forces "review". -/
theorem signal_quality_gate_witness :
    (50 : Rat) > 0
    ∧ (40 : Rat) < 50
    ∧ preflightBaseDecision 80 noRiskPayload ≠ "block"
    ∧ preflightBaseDecision 80 noRiskPayload = "allow"
    ∧ preflightDecision 80 40 50 noRiskPayload = "review" :=
  ⟨by decide, by decide, by decide, by decide,
    (signal_quality_gate 80 40 50 noRiskPayload).2.1 (by decide) (by decide) (by decide)⟩
